import Mathlib

/-!
Verification of the authentication-token core of the `algofinstatix` backend
(`src/backend/src/users/...`): the `Token` entity and its value objects, the
`TokenService` and `AuthService` domain services, and the `UnitOfWork`
transaction discipline.  Python code is shallowly embedded: datetimes become
`Int` seconds, fallible constructors and statements become `Except PyErr`,
attribute-assignment on frozen dataclasses and missing-attribute accesses
become explicitly erroring functions, and the persisted token store becomes a
`List Token` threaded through the service operations.  Every definition is
translated from the source files cited in its doc comment.
-/

set_option autoImplicit false

namespace AFS

/-- Python exception values raised by the embedded code, covering the builtin
exceptions the source can raise (ValueError, TypeError, AttributeError,
dataclasses.FrozenInstanceError, RuntimeError) and the domain exceptions of
`src/users/domain/exceptions.py`.  `TokenExpiredError`, `TokenRevokedError`
are subclasses of `TokenError`, which subclasses `AuthenticationError`;
`InvalidCredentialsError` is a `UserError`; `AccountDisabledError` and
`AccountNotVerifiedError` are `AccountError < UserError`. -/
inductive PyErr where
  | valueError (msg : String)
  | typeError (msg : String)
  | attributeError (msg : String)
  | frozenInstanceError (msg : String)
  | runtimeError (msg : String)
  | tokenError (msg : String)
  | tokenExpiredError (msg : String)
  | tokenRevokedError (msg : String)
  | invalidCredentialsError (msg : String)
  | accountDisabledError (msg : String)
  | accountNotVerifiedError (msg : String)
  | authenticationError (msg : String)
  deriving DecidableEq

/-- Decidable equality for `Except` results, so that concrete runs of the
embedded code can be checked by `decide`. -/
instance instDecEqExcept {ε α : Type} [DecidableEq ε] [DecidableEq α] :
    DecidableEq (Except ε α) := fun a b =>
  match a, b with
  | .error x, .error y =>
    if h : x = y then .isTrue (by rw [h])
    else .isFalse (fun hh => h (Except.error.inj hh))
  | .error _, .ok _ => .isFalse (fun hh => Except.noConfusion hh)
  | .ok _, .error _ => .isFalse (fun hh => Except.noConfusion hh)
  | .ok x, .ok y =>
    if h : x = y then .isTrue (by rw [h])
    else .isFalse (fun hh => h (Except.ok.inj hh))

/-- `except (InvalidCredentialsError, AccountDisabledError, AccountNotVerifiedError)`
in `auth_service.py` line 109: the credential-error classes re-raised verbatim
by `AuthService.authenticate_user`. -/
def PyErr.isCredentialErr : PyErr → Bool
  | .invalidCredentialsError _ => true
  | .accountDisabledError _ => true
  | .accountNotVerifiedError _ => true
  | _ => false

/-- `TokenStatus` constants, `token_value_objects.py` lines 23-29: the class
subclasses `str` and its members are plain strings. -/
def TokenStatus.ACTIVE : String := "active"

def TokenStatus.REVOKED : String := "revoked"

def TokenStatus.EXPIRED : String := "expired"

def TokenStatus.USED : String := "used"

/-- `TokenType` constants, `token_value_objects.py` lines 13-20. -/
def TokenType.ACCESS : String := "access"

def TokenType.REFRESH : String := "refresh"

def TokenType.EMAIL_VERIFICATION : String := "email_verification"

/-- `TokenString` value object, `token_value_objects.py` lines 43-99: a frozen
dataclass with a single required field `value`. -/
structure TokenString where
  value : String
  deriving DecidableEq

/-- `TokenString._is_opaque`, `token_value_objects.py` line 94-96: the value
matches the anchored regex `[A-Za-z0-9-_]+`. -/
def TokenString.is_opaque (s : String) : Bool :=
  s ≠ "" && s.toList.all (fun c => c.isAlphanum || c == '-' || c == '_')

/-- Splitting a character list on a separator, the char-level equivalent of
`str.split(sep)` used by `TokenString._is_jwt`. -/
def splitChar : List Char → Char → List (List Char)
  | [], _ => [[]]
  | c :: cs, sep =>
    let r := splitChar cs sep
    if c == sep then [] :: r
    else
      match r with
      | [] => [[c]]
      | h :: t => (c :: h) :: t

/-- `TokenString._is_jwt`, `token_value_objects.py` lines 64-82: the value must
split on `.` into exactly three parts, each decodable as padded base64url.
`base64.urlsafe_b64decode` is called with its default `validate=False`, which
first discards characters outside the base64 alphabet and then fails exactly
when the number of remaining data characters is congruent to 1 modulo 4
(padding for the original part length is appended by the source). -/
def TokenString.is_jwt (s : String) : Bool :=
  let parts := splitChar s.toList '.'
  parts.length == 3 &&
    parts.all (fun p =>
      ((p.filter
        (fun c => c.isAlphanum || c == '-' || c == '_' || c == '+' ||
                  c == '/' || c == '=')).length % 4) != 1)

/-- Removing every non-overlapping occurrence of a pattern from a character
list, left to right — the char-level equivalent of `str.replace(pat, "")`.
The `Nat` argument is recursion fuel, at least the list length. -/
def removePattern (pat : List Char) : Nat → List Char → List Char
  | 0, cs => cs
  | _, [] => []
  | Nat.succ n, c :: cs =>
    if pat ≠ [] && pat.isPrefixOf (c :: cs) then
      removePattern pat n ((c :: cs).drop pat.length)
    else c :: removePattern pat n cs

/-- The opening and closing brace characters stripped by `uuid.UUID`. -/
def braceChars : List Char := [Char.ofNat 123, Char.ofNat 125]

/-- `TokenString._is_uuid`, `token_value_objects.py` lines 84-92: Python's
`uuid.UUID(value)` removes `urn:` and `uuid:`, strips surrounding braces,
removes hyphens, and then requires exactly 32 hexadecimal digits. -/
def TokenString.is_uuid (s : String) : Bool :=
  let cs := s.toList
  let cs := removePattern "urn:".toList (cs.length + 1) cs
  let cs := removePattern "uuid:".toList (cs.length + 1) cs
  let cs := (((cs.dropWhile (fun c => braceChars.contains c)).reverse.dropWhile
      (fun c => braceChars.contains c)).reverse)
  let cs := cs.filter (fun c => c ≠ '-')
  cs.length == 32 && cs.all (fun c => c.isDigit ||
    ("abcdefABCDEF".toList.contains c))

/-- `TokenString.__post_init__`, `token_value_objects.py` lines 57-62:
`TokenString(value)` raises ValueError on an empty value or one that is
neither JWT, UUID, nor opaque. -/
def TokenString.call (value : String) : Except PyErr TokenString :=
  if value = "" then .error (.valueError "Token value cannot be empty")
  else if TokenString.is_jwt value || TokenString.is_uuid value ||
          TokenString.is_opaque value then .ok ⟨value⟩
  else .error (.valueError "Invalid token format. Must be JWT, UUID, or opaque token")

/-- `TokenString()` with no argument, as called in `token.py` lines 111 and
153: the dataclass field `value` has no default, so the call raises TypeError
before any token is built. -/
def TokenString.call_noarg : Except PyErr TokenString :=
  .error (.typeError "TokenString.__init__ missing 1 required positional argument: value")

/-- `TokenExpiry` value object, `token_value_objects.py` lines 102-141, with
datetimes as integer seconds. -/
structure TokenExpiry where
  expires_at : Int
  created_at : Int
  deriving DecidableEq

/-- `TokenExpiry.from_now`, `token_value_objects.py` lines 116-133, composed
with the `__post_init__` check of lines 109-114: `expires_at` must be strictly
after `created_at`, else ValueError. -/
def TokenExpiry.from_now (seconds : Int) (created : Int) : Except PyErr TokenExpiry :=
  if created + seconds ≤ created then .error (.valueError "Expiry time must be in the future")
  else .ok { expires_at := created + seconds, created_at := created }

/-- `TokenExpiry.is_expired`, `token_value_objects.py` lines 135-137.  Note
this is an ordinary method, not a property: accessing `expiry.is_expired`
without calling it yields a bound-method object (see `Token.is_expired_attr`). -/
def TokenExpiry.is_expired (e : TokenExpiry) (now : Int) : Bool :=
  now ≥ e.expires_at

/-- `TokenScope.has_all_scopes`, `token_value_objects.py` lines 166-170:
a wildcard scope grants everything, otherwise all required scopes must be
members. -/
def TokenScope.has_all_scopes (scopes required : List String) : Bool :=
  scopes.contains "*" || required.all (fun s => scopes.contains s)

/-- Lifetime bound constants, `token.py` lines 49-50. -/
def Token.MIN_TOKEN_LIFETIME : Int := 60

def Token.MAX_TOKEN_LIFETIME : Int := 2592000

/-- The `Token` entity, `token.py` lines 23-76: a frozen dataclass.  Fields
declared with `compare=False` in the source (every field after `status`) are
excluded from the generated `__eq__`; see `Token.pyEq`.  The entity has no
`id` field. -/
structure Token where
  token : TokenString
  user_id : String
  token_type : String
  expiry : TokenExpiry
  status : String := TokenStatus.ACTIVE
  created_at : Int := 0
  last_used_at : Option Int := none
  parent_token_id : Option String := none
  next_token_id : Option String := none
  user_agent : Option String := none
  ip_address : Option String := none
  scopes : List String := []
  revoked_at : Option Int := none
  revocation_reason : Option String := none
  deriving DecidableEq

/-- The generated `__eq__` of the `Token` dataclass: only the fields without
`compare=False` take part, i.e. `token`, `user_id`, `token_type`, `expiry`
and `status` (`token.py` lines 53-76). -/
def Token.pyEq (a b : Token) : Bool :=
  a.token == b.token && a.user_id == b.user_id && a.token_type == b.token_type &&
    a.expiry == b.expiry && a.status == b.status

/-- Truthiness-relevant Python attribute values: the `Token.is_expired`
property (`token.py` lines 173-180) returns `self.expiry.is_expired` without
parentheses, i.e. the bound method object, which is always truthy. -/
inductive PyAttrVal where
  | boolVal (b : Bool)
  | boundMethod
  deriving DecidableEq

/-- Python truthiness of an attribute value: any method object is truthy. -/
def PyAttrVal.truthy : PyAttrVal → Bool
  | .boolVal b => b
  | .boundMethod => true

/-- `Token.is_expired`, `token.py` lines 173-180: `return self.expiry.is_expired`.
`TokenExpiry.is_expired` is a plain method (no `@property`), so the attribute
access evaluates to a bound-method object, never to the boolean the docstring
promises. -/
def Token.is_expired_attr (_t : Token) : PyAttrVal :=
  .boundMethod

/-- `Token.is_revoked`, `token.py` lines 182-189. -/
def Token.is_revoked (t : Token) : Bool :=
  t.status == TokenStatus.REVOKED || t.revoked_at.isSome

/-- `Token.is_valid`, `token.py` lines 191-202:
`status == ACTIVE and not self.is_expired and not self.is_revoked`.
`not self.is_expired` negates the truthiness of the bound-method object. -/
def Token.is_valid (t : Token) : Bool :=
  t.status == TokenStatus.ACTIVE && !(t.is_expired_attr.truthy) && !t.is_revoked

/-- The keyword arguments accepted by `Token.with_updates` (`token.py` lines
259-280), one `Option` per dataclass field; `some` means the key is present in
`kwargs`.  Fields that are `Optional` in Python carry a nested `Option` so
that an explicit `None` value can be passed. -/
structure UpdateKwargs where
  token : Option TokenString := none
  user_id : Option String := none
  token_type : Option String := none
  expiry : Option TokenExpiry := none
  created_at : Option Int := none
  status : Option String := none
  last_used_at : Option (Option Int) := none
  parent_token_id : Option (Option String) := none
  next_token_id : Option (Option String) := none
  user_agent : Option (Option String) := none
  ip_address : Option (Option String) := none
  scopes : Option (List String) := none
  revoked_at : Option (Option Int) := none
  revocation_reason : Option (Option String) := none
  deriving DecidableEq

/-- The guard of `Token.with_updates`, `token.py` lines 274-277: whether any
key of `kwargs` names one of the immutable fields
`token, user_id, token_type, expiry, created_at`. -/
def UpdateKwargs.touchesImmutable (k : UpdateKwargs) : Bool :=
  k.token.isSome || k.user_id.isSome || k.token_type.isSome ||
    k.expiry.isSome || k.created_at.isSome

/-- `Token.with_updates`, `token.py` lines 259-280: raises ValueError when any
immutable field is among the keyword arguments, otherwise rebuilds the frozen
dataclass from `self.__dict__` overridden by `kwargs`. -/
def Token.with_updates (t : Token) (k : UpdateKwargs) : Except PyErr Token :=
  if k.touchesImmutable then
    .error (.valueError "Cannot modify immutable token fields")
  else
    .ok { t with
      status := k.status.getD t.status
      last_used_at := k.last_used_at.getD t.last_used_at
      parent_token_id := k.parent_token_id.getD t.parent_token_id
      next_token_id := k.next_token_id.getD t.next_token_id
      user_agent := k.user_agent.getD t.user_agent
      ip_address := k.ip_address.getD t.ip_address
      scopes := k.scopes.getD t.scopes
      revoked_at := k.revoked_at.getD t.revoked_at
      revocation_reason := k.revocation_reason.getD t.revocation_reason }

/-- `Token.revoke`, `token.py` lines 205-219. -/
def Token.revoke (t : Token) (now : Int) (reason : Option String) : Except PyErr Token :=
  t.with_updates { status := some TokenStatus.REVOKED,
                   revoked_at := some (some now),
                   revocation_reason := some reason }

/-- `Token.mark_used`, `token.py` lines 221-227. -/
def Token.mark_used (t : Token) (now : Int) : Except PyErr Token :=
  t.with_updates { last_used_at := some (some now) }

/-- `Token.link_to_token`, `token.py` lines 229-240: only refresh tokens may
be linked. -/
def Token.link_to_token (t : Token) (next_id : String) : Except PyErr Token :=
  if t.token_type ≠ TokenType.REFRESH then
    .error (.valueError "Only refresh tokens can be linked to other tokens")
  else t.with_updates { next_token_id := some (some next_id) }

/-- `Token.create_access_token` classmethod, `token.py` lines 78-120: empty
`user_id` and out-of-bounds `expires_in` raise ValueError
(`_validate_token_lifetime`, lines 243-257); on valid inputs the construction
begins with `token=TokenString()`, which raises TypeError because the
dataclass field `value` has no default (see `TokenString.call_noarg`). -/
def Token.create_access_token (user_id : String) (expires_in : Int)
    (scopes : List String) (user_agent ip_address parent_token_id : Option String)
    (now : Int) : Except PyErr Token :=
  if user_id = "" then .error (.valueError "User ID cannot be empty")
  else if ¬(Token.MIN_TOKEN_LIFETIME ≤ expires_in ∧
            expires_in ≤ Token.MAX_TOKEN_LIFETIME) then
    .error (.valueError "Token lifetime must be between 60 and 2592000 seconds")
  else
    match TokenString.call_noarg with
    | .error e => .error e
    | .ok ts =>
      .ok { token := ts, user_id := user_id, token_type := TokenType.ACCESS,
            expiry := { expires_at := now + expires_in, created_at := now },
            created_at := now, scopes := scopes, user_agent := user_agent,
            ip_address := ip_address, parent_token_id := parent_token_id }

/-- `Token.create_refresh_token` classmethod, `token.py` lines 122-161: same
validation and the same `TokenString()` call as the access-token factory. -/
def Token.create_refresh_token (user_id : String) (expires_in : Int)
    (user_agent ip_address parent_token_id : Option String)
    (now : Int) : Except PyErr Token :=
  if user_id = "" then .error (.valueError "User ID cannot be empty")
  else if ¬(Token.MIN_TOKEN_LIFETIME ≤ expires_in ∧
            expires_in ≤ Token.MAX_TOKEN_LIFETIME) then
    .error (.valueError "Token lifetime must be between 60 and 2592000 seconds")
  else
    match TokenString.call_noarg with
    | .error e => .error e
    | .ok ts =>
      .ok { token := ts, user_id := user_id, token_type := TokenType.REFRESH,
            expiry := { expires_at := now + expires_in, created_at := now },
            created_at := now, user_agent := user_agent,
            ip_address := ip_address, parent_token_id := parent_token_id }

/-- `UserStatus` of the user aggregate, as read by `AuthService`
(`auth_service.py` lines 83 and 95). -/
structure UserStatus where
  is_enabled : Bool
  is_verified : Bool
  deriving DecidableEq

/-- The `User` aggregate restricted to the fields the token/auth core reads
(`user.py`; `auth_service.py` lines 77-100, `token_service.py` line 195). -/
structure User where
  id : String
  email : String
  username : String
  hashed_password : String
  status : UserStatus
  deriving DecidableEq

/-- `TokenPayload` of `token_value_objects.py` lines 32-40, the decoded JWT
claims used by `TokenService.verify_token`. -/
structure TokenPayload where
  sub : String
  type : String
  jti : String
  iat : Int
  exp : Int
  scopes : List String
  deriving DecidableEq

/-- `TokenVerificationResult` of `token_schemas.py` lines 164-171: the fields
as annotated on the class. -/
structure TokenVerificationResult where
  is_valid : Bool
  user_id : Option String := none
  token : Option String := none
  payload : Option TokenPayload := none
  error : Option String := none
  deriving DecidableEq

/-- The TypeError message produced by calling the `TokenVerificationResult`
class with keyword arguments. -/
def tvrNoArgsMsg : String := "TokenVerificationResult() takes no arguments"

/-- Calling `TokenVerificationResult(...)`: the class in `token_schemas.py`
lines 164-171 is a plain class carrying only annotations; it is neither a
dataclass nor a pydantic model and defines no `__init__`, so every call with
arguments raises TypeError.  Every `return TokenVerificationResult(...)` in
`token_service.py` therefore raises instead of returning. -/
def TokenVerificationResult.call (_is_valid : Bool) (_user_id _token : Option String)
    (_payload : Option TokenPayload) (_error : Option String) :
    Except PyErr TokenVerificationResult :=
  .error (.typeError tvrNoArgsMsg)

/-- `result.user` in `token_service.py` line 672: `TokenVerificationResult`
declares no attribute `user` (its fields are `is_valid`, `user_id`, `token`,
`payload`, `error`), so the access raises AttributeError. -/
def TokenVerificationResult.userAttr (_r : TokenVerificationResult) : Except PyErr User :=
  .error (.attributeError "TokenVerificationResult object has no attribute user")

/-- `token.status.value` in `token_service.py` line 439: `TokenStatus`
subclasses `str`, so a persisted status is a plain string and has no `value`
attribute; the access raises AttributeError. -/
def strValueAttr (_s : String) : Except PyErr String :=
  .error (.attributeError "str object has no attribute value")

/-- Attribute assignment `token.last_used_at = ...` in `token_service.py`
line 461: `Token` is declared `@dataclass(frozen=True)` (`token.py` line 24),
so the assignment raises `dataclasses.FrozenInstanceError`. -/
def Token.set_last_used_at (_t : Token) (_v : Int) : Except PyErr Token :=
  .error (.frozenInstanceError "cannot assign to field last_used_at")

/-- Attribute assignment `token.status = ...` in `token_service.py` line 560:
raises `dataclasses.FrozenInstanceError` on the frozen `Token` dataclass. -/
def Token.set_status (_t : Token) (_v : String) : Except PyErr Token :=
  .error (.frozenInstanceError "cannot assign to field status")

/-- `Token.create(...)` as called by `TokenService.create_token`
(`token_service.py` lines 148-157): the `Token` entity (`token.py`) defines
only the classmethods `create_access_token` and `create_refresh_token`, no
`create`, so the attribute access raises AttributeError. -/
def Token.createAttr : Except PyErr Token :=
  .error (.attributeError "type object Token has no attribute create")

/-- `token.generate_opaque_token_string()` as called by
`TokenService.create_refresh_token` (`token_service.py` line 521): no such
method exists on the `Token` entity, so the access raises AttributeError. -/
def Token.generateOpaqueAttr : Except PyErr String :=
  .error (.attributeError "Token object has no attribute generate_opaque_token_string")

/-- `token.id` as read by `TokenService.refresh_access_token`
(`token_service.py` line 691) and `AuthService.create_token_pair`
(`auth_service.py` line 149): the `Token` dataclass declares no `id` field,
so the access raises AttributeError. -/
def Token.idAttr (_t : Token) : Except PyErr String :=
  .error (.attributeError "Token object has no attribute id")

/-- Outcomes of `TokenService._decode_jwt` (`token_service.py` lines 288-323):
a decoded payload, a `TokenExpiredError`, a `TokenError` for any other JWT
failure, or a propagating Python error (the source builds
`TokenPayload(**payload)`, which raises TypeError when the payload carries
claims beyond the dataclass fields, as the access tokens minted by
`_create_jwt_payload` do).  The whole decoding behaviour, signature checks
included, is abstracted as a function of the token string. -/
inductive DecodeOutcome where
  | ok (payload : TokenPayload)
  | expiredErr
  | invalidErr
  | pyErr (e : PyErr)

/-- The environment a `TokenService` call runs in: the JWT decoding oracle,
the persisted users (reached through `uow.users`), the clock, and the
configured expiry seconds (`token_service.py` lines 58-98). -/
structure VerifyEnv where
  decode : String → DecodeOutcome
  users : List User
  now : Int
  access_token_expire_seconds : Int := 3600
  refresh_token_expire_seconds : Int := 604800

/-- `ITokenRepository.get_by_token` over the in-memory embedding of the token
store: first stored token whose string value matches
(`token_repository_impl.py` lines 117-138). -/
def TokenService.get_by_token (store : List Token) (s : String) : Option Token :=
  store.find? (fun t => t.token.value == s)

/-- `ITokenRepository.update_token` over the in-memory store: replace the
token with the matching string value. -/
def TokenService.update_token (store : List Token) (t : Token) : List Token :=
  store.map (fun x => if x.token.value == t.token.value then t else x)

/-- The type-mismatch test of `token_service.py` line 422:
`if token_type and payload.type != token_type` (an empty string is falsy). -/
def typeMismatch (token_type : Option String) (p : TokenPayload) : Bool :=
  match token_type with
  | none => false
  | some s => s ≠ "" && p.type ≠ s

/-- The scope test of `token_service.py` lines 443-448:
`if required_scopes:` skips the check for `None` or an empty set, otherwise
the payload scopes must contain all required ones (or the wildcard). -/
def scopesInsufficient (required_scopes : Option (List String)) (p : TokenPayload) : Bool :=
  match required_scopes with
  | none => false
  | some rs => rs ≠ [] && !(TokenScope.has_all_scopes p.scopes rs)

/-- The inner `try` of `TokenService.verify_token`, `token_service.py` lines
450-467: parse `payload.sub`, look the user up through `uow.users`, return
"User not found" when absent, otherwise perform the in-place assignment
`token.last_used_at = ...` (which raises `FrozenInstanceError` on the frozen
dataclass), then `update_token`, `commit` and the success-result
construction. -/
def TokenService.verify_user_step (env : VerifyEnv) (store : List Token)
    (payload : TokenPayload) (token : Token) :
    Except PyErr TokenVerificationResult × List Token :=
  match env.users.find? (fun u => u.id == payload.sub) with
  | none =>
    (TokenVerificationResult.call false none none none (some "User not found"), store)
  | some user =>
    match Token.set_last_used_at token env.now with
    | .error e => (.error e, store)
    | .ok token2 =>
      (TokenVerificationResult.call true (some user.id)
        (some token2.token.value) (some payload) none,
       TokenService.update_token store token2)

/-- The body of the outer `try` of `TokenService.verify_token`
(`token_service.py` lines 410-473), step by step: decode (lines 412-419, where
a propagating Python error from `_decode_jwt` is caught by neither inner
handler), type check (421-425), lookup (427-430), status check (432-440, which
raises `TokenExpiredError`/`TokenRevokedError` and evaluates
`token.status.value` in the fallback), scope check (442-448), then the inner
`try` of lines 450-473: user lookup, the frozen-dataclass assignment
`token.last_used_at = ...`, `update_token`, `commit`, and the result
construction, with `except Exception` mapping any failure to a
`TokenVerificationResult(False, error="Error verifying user")` construction.
Returns the verification outcome and the store after the call. -/
def TokenService.verify_token_body (env : VerifyEnv) (store : List Token)
    (token_str : String) (token_type : Option String)
    (required_scopes : Option (List String)) :
    Except PyErr TokenVerificationResult × List Token :=
  match env.decode token_str with
  | .expiredErr =>
    (TokenVerificationResult.call false none none none (some "Token has expired"), store)
  | .invalidErr =>
    (TokenVerificationResult.call false none none none (some "Invalid token"), store)
  | .pyErr e => (.error e, store)
  | .ok payload =>
    if typeMismatch token_type payload then
      (TokenVerificationResult.call false none none none
        (some ("Invalid token type: expected " ++ token_type.getD "")), store)
    else
      match TokenService.get_by_token store token_str with
      | none =>
        (TokenVerificationResult.call false none none none (some "Token not found"), store)
      | some token =>
        if token.status ≠ TokenStatus.ACTIVE then
          if token.status = TokenStatus.EXPIRED then
            (.error (.tokenExpiredError "Token has expired"), store)
          else if token.status = TokenStatus.REVOKED then
            (.error (.tokenRevokedError "Token has been revoked"), store)
          else
            match strValueAttr token.status with
            | .error e => (.error e, store)
            | .ok sv =>
              (TokenVerificationResult.call false none none none
                (some ("Token is " ++ sv)), store)
        else
          if scopesInsufficient required_scopes payload then
            (TokenVerificationResult.call false none none none
              (some "Insufficient permissions"), store)
          else
            match TokenService.verify_user_step env store payload token with
            | (.error _, _) =>
              (TokenVerificationResult.call false none none none
                (some "Error verifying user"), store)
            | okCase => okCase

/-- `TokenService.verify_token`, `token_service.py` lines 389-479: the outer
`except Exception` (lines 475-479) catches any exception escaping the body and
itself constructs a `TokenVerificationResult(False, error="Internal server
error")`; any partial transaction was rolled back, so the store reverts. -/
def TokenService.verify_token (env : VerifyEnv) (store : List Token)
    (token_str : String) (token_type : Option String)
    (required_scopes : Option (List String)) :
    Except PyErr TokenVerificationResult × List Token :=
  match TokenService.verify_token_body env store token_str token_type required_scopes with
  | (.error _, _) =>
    (TokenVerificationResult.call false none none none
      (some "Internal server error"), store)
  | okCase => okCase

/-- `TokenService.revoke_token`, `token_service.py` lines 532-577: lookup,
no-op `False` when absent or not active, otherwise the in-place mutations
`token.status = REVOKED`, `token.revoked_at = now`,
`token.revocation_reason = reason` (the first of which raises
`FrozenInstanceError`), then `update_token` and `commit`; `except Exception`
returns `False` with the transaction rolled back. -/
def TokenService.revoke_token (env : VerifyEnv) (store : List Token)
    (token_identifier : String) (reason : String) : Bool × List Token :=
  match TokenService.get_by_token store token_identifier with
  | none => (false, store)
  | some token =>
    if token.status ≠ TokenStatus.ACTIVE then (false, store)
    else
      match Token.set_status token TokenStatus.REVOKED with
      | .error _ => (false, store)
      | .ok token1 =>
        let token2 := { token1 with revoked_at := some env.now,
                                    revocation_reason := some reason }
        (true, TokenService.update_token store token2)

/-- `TokenService.create_token`, `token_service.py` lines 102-169: rejects an
empty user id with ValueError, then inside a `try` builds the expiry and the
token string (`fresh` stands for the `secrets.token_urlsafe(32)` value used
when no `token_string` is supplied) and calls `Token.create(...)`, which
raises AttributeError because the entity has no such classmethod; the
`except Exception` wraps every failure into `TokenError("Failed to create
token")`.  The would-be persistence (`uow.tokens.create_token` + `commit`)
appends to the store. -/
def TokenService.create_token (env : VerifyEnv) (store : List Token)
    (user_id : String) (_token_type : String) (expires_in_seconds : Int)
    (_scopes : List String) (fresh : String) (token_string : Option String) :
    Except PyErr Token × List Token :=
  if user_id = "" then (.error (.valueError "User ID is required"), store)
  else
    let tryBody : Except PyErr Token × List Token :=
      match TokenExpiry.from_now expires_in_seconds env.now with
      | .error e => (.error e, store)
      | .ok _expiry =>
        match TokenString.call (token_string.getD fresh) with
        | .error e => (.error e, store)
        | .ok _ts =>
          match Token.createAttr with
          | .error e => (.error e, store)
          | .ok token => (.ok token, store ++ [token])
    match tryBody with
    | (.error _, _) => (.error (.tokenError "Failed to create token"), store)
    | okCase => okCase

/-- `TokenService.create_refresh_token`, `token_service.py` lines 481-530:
rejects an invalid user, delegates to `create_token` with type `refresh`,
scope `refresh_token` and the configured refresh expiry (any `TokenError`
propagates, there is no handler here), then would rebuild the token string
via the nonexistent `generate_opaque_token_string` and persist it. -/
def TokenService.create_refresh_token (env : VerifyEnv) (store : List Token)
    (user : User) (_parent_token_id : Option String) (fresh : String) :
    Except PyErr (String × Token) × List Token :=
  if user.id = "" then (.error (.valueError "Invalid user"), store)
  else
    match TokenService.create_token env store user.id TokenType.REFRESH
        env.refresh_token_expire_seconds ["refresh_token"] fresh none with
    | (.error e, st) => (.error e, st)
    | (.ok token, st) =>
      match Token.generateOpaqueAttr with
      | .error e => (.error e, st)
      | .ok opaque1 =>
        match TokenString.call opaque1 with
        | .error e => (.error e, st)
        | .ok ts =>
          match token.with_updates { token := some ts } with
          | .error e => (.error e, st)
          | .ok token2 =>
            (.ok (token2.token.value, token2), TokenService.update_token st token2)

/-- `TokenService.create_access_token`, `token_service.py` lines 210-275:
rejects an invalid user, builds and signs the JWT payload (`jwtString` stands
for the encoded `_encode_jwt` output), delegates persistence to
`create_token`, and wraps any failure into
`TokenError("Failed to create access token")`. -/
def TokenService.create_access_token (env : VerifyEnv) (store : List Token)
    (user : User) (_scopes : Option (List String)) (jwtString : String) :
    Except PyErr (String × Token) × List Token :=
  if user.id = "" then (.error (.valueError "Invalid user"), store)
  else
    match TokenService.create_token env store user.id TokenType.ACCESS
        env.access_token_expire_seconds [] jwtString (some jwtString) with
    | (.error _, st) => (.error (.tokenError "Failed to create access token"), st)
    | (.ok token, st) => (.ok (jwtString, token), st)

/-- `TokenService.refresh_access_token`, `token_service.py` lines 654-703:
verifies the refresh token with expected type `refresh`, then would check
`result.is_valid`, `result.user` (an attribute the result class does not
have), mint a new access token, revoke the old token by `token.id` (an
attribute the `Token` entity does not have) and mint a new refresh token; the
`except Exception` of lines 701-703 converts every raised error into `None`. -/
def TokenService.refresh_access_token (env : VerifyEnv) (store : List Token)
    (refresh_token : String) (fresh : String) :
    Option (String × String) × List Token :=
  match TokenService.verify_token env store refresh_token (some TokenType.REFRESH) none with
  | (.error _, _) => (none, store)
  | (.ok result, store1) =>
    if !result.is_valid then (none, store1)
    else
      match TokenVerificationResult.userAttr result with
      | .error _ => (none, store1)
      | .ok user =>
        match TokenService.create_access_token env store1 user none fresh with
        | (.error _, _) => (none, store1)
        | (.ok (access_token, _), store2) =>
          match TokenService.get_by_token store2 refresh_token with
          | none => (none, store1)
          | some oldTok =>
            match Token.idAttr oldTok with
            | .error _ => (none, store1)
            | .ok oldId =>
              let (_, store3) :=
                TokenService.revoke_token env store2 oldId "Refreshed with new token"
              match TokenService.create_refresh_token env store3 user (some oldId) fresh with
              | (.error _, _) => (none, store1)
              | (.ok (new_refresh_token, _), store4) =>
                (some (access_token, new_refresh_token), store4)

/-- The dictionary returned by `AuthService.create_token_pair`
(`auth_service.py` lines 154-158): three entries, despite the annotated
return type `Tuple[str, str, Token, Token]`. -/
structure TokenPairDict where
  access_token : String
  refresh_token : String
  token_type : String
  deriving DecidableEq

/-- The tuple-unpacking `access_token, refresh_token, _, _ = token_data` of
`auth_service.py` line 101 applied to the three-entry dict actually returned
by `create_token_pair`: iterating a dict yields its three keys, so unpacking
into four targets raises
`ValueError: not enough values to unpack (expected 4, got 3)`. -/
def TokenPairDict.unpackFour (_d : TokenPairDict) :
    Except PyErr (String × String × String × String) :=
  .error (.valueError "not enough values to unpack (expected 4, got 3)")

/-- The environment of an `AuthService` call: the verification environment of
the underlying `TokenService` plus the `PasswordService.verify_password`
collaborator (consumed, not specified, per the spec). -/
structure AuthEnv where
  tokenEnv : VerifyEnv
  verify_password : String → String → Bool

/-- `AuthService.create_token_pair`, `auth_service.py` lines 120-167: creates
the refresh token first (which raises `TokenError`, see
`TokenService.create_refresh_token`), then reads `refresh_token.id` (an
attribute the entity lacks) and calls `TokenService.create_access_token` with
the keyword argument `refresh_token_id`, which that method does not accept
(its parameters are `user`, `scopes`, `request_info`), raising TypeError; the
`except Exception` of lines 160-167 wraps every failure into
`AuthenticationError("Failed to create token pair")`. -/
def AuthService.create_token_pair (env : AuthEnv) (store : List Token)
    (user : User) (fresh : String) : Except PyErr TokenPairDict × List Token :=
  let tryBody : Except PyErr TokenPairDict × List Token :=
    match TokenService.create_refresh_token env.tokenEnv store user none fresh with
    | (.error e, st) => (.error e, st)
    | (.ok (_refresh_token_str, refresh_token), st) =>
      match Token.idAttr refresh_token with
      | .error e => (.error e, st)
      | .ok _rid =>
        (.error (.typeError
          "create_access_token got an unexpected keyword argument refresh_token_id"), st)
  match tryBody with
  | (.error _, _) =>
    (.error (.authenticationError "Failed to create token pair"), store)
  | okCase => okCase

/-- The `try` body of `AuthService.authenticate_user`, `auth_service.py`
lines 74-107: inside a transaction, user lookup by email (absence raises
`InvalidCredentialsError`), enabled check (`AccountDisabledError`), password
check via the collaborator (`InvalidCredentialsError`), verified check
(`AccountNotVerifiedError`), then `create_token_pair` and the four-target
unpacking of its dict result. -/
def AuthService.authenticate_user_body (env : AuthEnv) (store : List Token)
    (users : List User) (email password : String) (fresh : String) :
    Except PyErr (User × TokenPairDict) × List Token :=
  match users.find? (fun u => u.email == email) with
  | none => (.error (.invalidCredentialsError "Invalid email or password"), store)
  | some user =>
    if !user.status.is_enabled then
      (.error (.accountDisabledError "Account is disabled"), store)
    else if !env.verify_password password user.hashed_password then
      (.error (.invalidCredentialsError "Invalid email or password"), store)
    else if !user.status.is_verified then
      (.error (.accountNotVerifiedError "Please verify your email first"), store)
    else
      match AuthService.create_token_pair env store user fresh with
      | (.error e, st) => (.error e, st)
      | (.ok token_data, st) =>
        match token_data.unpackFour with
        | .error e => (.error e, st)
        | .ok (access_token, refresh_token, _, _) =>
          (.ok (user, { access_token := access_token,
                        refresh_token := refresh_token,
                        token_type := "bearer" }), st)

/-- The `except` clauses of `AuthService.authenticate_user`
(`auth_service.py` lines 109-118): credential errors are re-raised verbatim,
everything else is wrapped into `AuthenticationError` after the transaction
rolled back. -/
def AuthService.authenticate_user (env : AuthEnv) (store : List Token)
    (users : List User) (email password : String) (fresh : String) :
    Except PyErr (User × TokenPairDict) × List Token :=
  match AuthService.authenticate_user_body env store users email password fresh with
  | (.error e, _) =>
    if e.isCredentialErr then (.error e, store)
    else (.error (.authenticationError "An error occurred during authentication"), store)
  | okCase => okCase

/-- The primitive operations a caller performs inside a
`UnitOfWork.transaction()` block: a repository write through
`uow.users`/`uow.tokens` (session-buffered), an explicit `uow.commit()`
(which commits the underlying session, `unit_of_work.py` lines 62-71), or a
raised exception. -/
inductive UowOp where
  | write (t : Token)
  | commit
  | raiseExc (e : PyErr)

/-- Whether an operation is the explicit `commit()` call. -/
def UowOp.isCommit : UowOp → Bool
  | .commit => true
  | _ => false

/-- The state of the SQLAlchemy session owned by a `UnitOfWork`
(`unit_of_work.py` lines 23-48): `durable` is what the database holds after
the last commit, `pending` the session view including uncommitted writes. -/
structure SessionState where
  durable : List Token
  pending : List Token
  deriving DecidableEq

/-- Executing a sequence of operations against the session: a write buffers
into `pending`; `commit()` makes `pending` durable (`self._session.commit()`);
a raised exception aborts, reporting the state at the raise. -/
def runOps : SessionState → List UowOp → Except (PyErr × SessionState) SessionState
  | s, [] => .ok s
  | s, .write t :: rest => runOps { s with pending := s.pending ++ [t] } rest
  | s, .commit :: rest => runOps { durable := s.pending, pending := s.pending } rest
  | s, .raiseExc e :: _ => .error (e, s)

/-- `UnitOfWork.transaction`, `unit_of_work.py` lines 78-96: the block runs
inside `async with self._session.begin():`.  On an exception the handler calls
`self.rollback()` (discarding uncommitted writes) and re-raises.  On a normal
exit the `session.begin()` context manager commits the transaction — the
documented contract of SQLAlchemy's `(Async)SessionTransaction`, the session
collaborator used at line 91 — making the pending writes durable.  The result
is the raised error (if any) and the durable store after the block. -/
def UnitOfWork.transaction (durable : List Token) (ops : List UowOp) :
    Except PyErr Unit × List Token :=
  match runOps { durable := durable, pending := durable } ops with
  | .ok s => (.ok (), s.pending)
  | .error (e, s) => (.error e, s.durable)

/-! ### Sample values and helper lemmas -/

/-- A concrete active, unexpired, unrevoked refresh token. -/
def sampleActive : Token :=
  { token := ⟨"tok-1"⟩, user_id := "user-1", token_type := TokenType.REFRESH,
    expiry := { expires_at := 1000, created_at := 0 }, created_at := 0,
    scopes := ["refresh_token"] }

/-- A concrete token persisted with status `revoked`. -/
def sampleRevoked : Token :=
  { token := ⟨"tok-2"⟩, user_id := "user-1", token_type := TokenType.REFRESH,
    expiry := { expires_at := 1000, created_at := 0 },
    status := TokenStatus.REVOKED, created_at := 0,
    revoked_at := some 5, revocation_reason := some "logout" }

/-- A concrete enabled, verified user. -/
def sampleUser : User :=
  { id := "user-1", email := "u@example.com", username := "u1",
    hashed_password := "hashed-secret",
    status := { is_enabled := true, is_verified := true } }

/-- A decoded payload of type `refresh` for `sampleUser`. -/
def samplePayload : TokenPayload :=
  { sub := "user-1", type := "refresh", jti := "jti-1", iat := 0, exp := 1000,
    scopes := ["*"] }

/-- A verification environment whose JWT oracle always decodes successfully to
`samplePayload` — the most permissive behaviour the decoder could have. -/
def decodeEnvOk : VerifyEnv :=
  { decode := fun _ => .ok samplePayload, users := [sampleUser], now := 0 }

/-- Equality of the five fields of `Token` that `with_updates` refuses to
change (`token.py` line 275). -/
def Token.sameCore (a b : Token) : Prop :=
  a.token = b.token ∧ a.user_id = b.user_id ∧ a.token_type = b.token_type ∧
    a.expiry = b.expiry ∧ a.created_at = b.created_at

/-- A successful `with_updates` never changes the core fields. -/
lemma with_updates_ok_sameCore (t : Token) (k : UpdateKwargs) (t' : Token)
    (h : t.with_updates k = .ok t') : t'.sameCore t := by
  unfold Token.with_updates at h
  split at h
  · exact absurd h (by simp)
  · cases h
    exact ⟨rfl, rfl, rfl, rfl, rfl⟩

/-! ### Claim C2 -/

/-- Claim C2 (code bug): the claim states `is_valid` holds iff the token is
active, unexpired and unrevoked.  In the code `Token.is_valid` is `false` for
every token, because the `is_expired` property returns the bound method
`self.expiry.is_expired` without calling it and the truthy method object makes
`not self.is_expired` always false.  `sampleActive` is active, unrevoked and
unexpired at `now = 0` (its `expires_at` is 1000), yet `is_valid` is false. -/
theorem C2_is_valid_always_false :
    (∀ t : Token, Token.is_valid t = false) ∧
      (sampleActive.status = TokenStatus.ACTIVE ∧
       sampleActive.revoked_at = none ∧
       (0 : Int) < sampleActive.expiry.expires_at ∧
       TokenExpiry.is_expired sampleActive.expiry 0 = false ∧
       Token.is_valid sampleActive = false) := by
  refine ⟨fun t => ?_, rfl, rfl, by decide, by decide, by decide⟩
  simp [Token.is_valid, Token.is_expired_attr, PyAttrVal.truthy]

/-! ### Claim C8 -/

/-- Claim C8 (confirmed): `with_updates` fails with ValueError whenever the
keyword set touches a core field (`token`, `user_id`, `token_type`, `expiry`,
`created_at`), and no operation — a successful `with_updates`, `revoke`,
`mark_used` or `link_to_token` — ever changes a core field of a constructed
token. -/
theorem C8_with_updates_immutable_core :
    ∀ (t : Token) (k : UpdateKwargs),
      (k.touchesImmutable = true →
        t.with_updates k = .error (.valueError "Cannot modify immutable token fields")) ∧
      (∀ t', t.with_updates k = .ok t' → t'.sameCore t) ∧
      (∀ now reason t', t.revoke now reason = .ok t' → t'.sameCore t) ∧
      (∀ now t', t.mark_used now = .ok t' → t'.sameCore t) ∧
      (∀ nid t', t.link_to_token nid = .ok t' → t'.sameCore t) := by
  intro t k
  refine ⟨fun h => ?_, fun t' h => with_updates_ok_sameCore t k t' h,
          fun now reason t' h => with_updates_ok_sameCore t _ t' h,
          fun now t' h => with_updates_ok_sameCore t _ t' h,
          fun nid t' h => ?_⟩
  · unfold Token.with_updates
    simp [h]
  · unfold Token.link_to_token at h
    split at h
    · exact absurd h (by simp)
    · exact with_updates_ok_sameCore t _ t' h

/-- Witness for C8: a concrete update touching `user_id` fails with the
ValueError, and a concrete `mark_used` preserves the core fields. -/
theorem C8_witness :
    sampleActive.with_updates { user_id := some "other" } =
      .error (.valueError "Cannot modify immutable token fields") ∧
    Token.sameCore { sampleActive with last_used_at := some 42 } sampleActive :=
  ⟨(C8_with_updates_immutable_core sampleActive { user_id := some "other" }).1 rfl,
   (C8_with_updates_immutable_core sampleActive
       { last_used_at := some (some 42) }).2.2.2.1 42
     { sampleActive with last_used_at := some 42 } rfl⟩

/-! ### Claim C9 -/

/-- Claim C9 is refuted as stated: with a non-empty `user_id` and an
in-bounds `expires_in` of 3600 s, `Token.create_access_token` does not return
a token — it fails anyway, with TypeError (not ValueError), because the
construction calls `TokenString()` without the required `value` argument. -/
theorem C9_counterexample :
    Token.create_access_token "user-1" 3600 [] none none none 0 =
      .error (.typeError
        "TokenString.__init__ missing 1 required positional argument: value") := by
  decide

/-- A token built by the plain `Token` constructor — exactly what the
repository mapper `TokenRepositoryImpl._to_entity` does — with a 10-second
lifetime, far below `MIN_TOKEN_LIFETIME`. -/
def tenSecondToken : Token :=
  { token := ⟨"short-lived"⟩, user_id := "user-1",
    token_type := TokenType.ACCESS,
    expiry := { expires_at := 10, created_at := 0 }, created_at := 0 }

/-- Claim C9 (corrected): the factory classmethods raise ValueError when
`user_id` is empty or `expires_in` lies outside `[60 s, 2592000 s]`, but on
valid inputs they raise TypeError instead of returning a token (the
`TokenString()` call lacks its required argument); and the bounds are not
enforced at construction: the plain constructor — the code path used by the
repository mapper — accepts any expiry that `TokenExpiry` itself admits
(anything strictly positive), e.g. a 10-second token. -/
theorem C9_lifetime_bounds :
    (∀ (user_id : String) (expires_in : Int) scopes ua ip pid now,
      user_id = "" →
        Token.create_access_token user_id expires_in scopes ua ip pid now =
          .error (.valueError "User ID cannot be empty")) ∧
    (∀ (user_id : String) (expires_in : Int) scopes ua ip pid now,
      user_id ≠ "" →
      (expires_in < Token.MIN_TOKEN_LIFETIME ∨ Token.MAX_TOKEN_LIFETIME < expires_in) →
        Token.create_access_token user_id expires_in scopes ua ip pid now =
          .error (.valueError "Token lifetime must be between 60 and 2592000 seconds")) ∧
    (∀ (user_id : String) (expires_in : Int) scopes ua ip pid now,
      user_id ≠ "" →
      Token.MIN_TOKEN_LIFETIME ≤ expires_in → expires_in ≤ Token.MAX_TOKEN_LIFETIME →
        Token.create_access_token user_id expires_in scopes ua ip pid now =
          .error (.typeError
            "TokenString.__init__ missing 1 required positional argument: value")) ∧
    (∀ (user_id : String) (expires_in : Int) ua ip pid now,
      user_id ≠ "" →
      Token.MIN_TOKEN_LIFETIME ≤ expires_in → expires_in ≤ Token.MAX_TOKEN_LIFETIME →
        Token.create_refresh_token user_id expires_in ua ip pid now =
          .error (.typeError
            "TokenString.__init__ missing 1 required positional argument: value")) ∧
    (TokenExpiry.from_now 10 0 = .ok { expires_at := 10, created_at := 0 } ∧
     tenSecondToken.expiry.expires_at - tenSecondToken.expiry.created_at <
       Token.MIN_TOKEN_LIFETIME ∧
     tenSecondToken.status = TokenStatus.ACTIVE) := by
  refine ⟨?_, ?_, ?_, ?_, by decide, by decide, rfl⟩
  · intro user_id expires_in scopes ua ip pid now h
    simp [Token.create_access_token, h]
  · intro user_id expires_in scopes ua ip pid now h hb
    have : ¬(Token.MIN_TOKEN_LIFETIME ≤ expires_in ∧
        expires_in ≤ Token.MAX_TOKEN_LIFETIME) := by omega
    simp [Token.create_access_token, h, this]
  · intro user_id expires_in scopes ua ip pid now h h1 h2
    simp [Token.create_access_token, h, h1, h2, TokenString.call_noarg]
  · intro user_id expires_in ua ip pid now h h1 h2
    simp [Token.create_refresh_token, h, h1, h2, TokenString.call_noarg]

/-- Witness for C9: the amended behaviour at concrete inputs — empty user id,
out-of-bounds lifetime, and a valid input that still fails with TypeError. -/
theorem C9_witness :
    Token.create_access_token "" 3600 [] none none none 0 =
      .error (.valueError "User ID cannot be empty") ∧
    Token.create_access_token "user-1" 10 [] none none none 0 =
      .error (.valueError "Token lifetime must be between 60 and 2592000 seconds") ∧
    Token.create_refresh_token "user-1" 604800 none none none 0 =
      .error (.typeError
        "TokenString.__init__ missing 1 required positional argument: value") :=
  ⟨C9_lifetime_bounds.1 "" 3600 [] none none none 0 rfl,
   (C9_lifetime_bounds.2.1 "user-1" 10 [] none none none 0 (by decide) (by decide)),
   (C9_lifetime_bounds.2.2.2.1 "user-1" 604800 none none none 0
     (by decide) (by decide) (by decide))⟩

/-! ### Claim C10 -/

/-- Claim C10 is refuted as stated: the claim says `t.revoke(reason)` always
compares unequal to `t`.  For a token that is already revoked, `revoke`
rewrites `status` to the value it already has and only changes non-compared
fields, so the result compares equal. -/
theorem C10_counterexample :
    (sampleRevoked.revoke 7 (some "again")).map
        (fun t' => Token.pyEq t' sampleRevoked) = .ok true := by
  decide

/-- Claim C10 (corrected): `Token` equality compares exactly `token`,
`user_id`, `token_type`, `expiry` and `status` (the remaining fields are
declared `compare=False`): `mark_used` always yields a token equal to the
original; any successful `with_updates` that does not touch `status` preserves
equality; and `revoke` yields an unequal token exactly because `status`
changes — hence only when the token was not already revoked. -/
theorem C10_equality_semantics :
    ∀ (t : Token) (now : Int),
      (∀ t', t.mark_used now = .ok t' → Token.pyEq t' t = true) ∧
      (∀ k t', k.status = none → t.with_updates k = .ok t' → Token.pyEq t' t = true) ∧
      (∀ reason t', t.status ≠ TokenStatus.REVOKED → t.revoke now reason = .ok t' →
        Token.pyEq t' t = false) := by
  intro t now
  have hupd : ∀ k t', k.status = none → t.with_updates k = .ok t' →
      Token.pyEq t' t = true := by
    intro k t' hs h
    unfold Token.with_updates at h
    split at h
    · exact absurd h (by simp)
    · cases h
      simp [Token.pyEq, hs]
  refine ⟨fun t' h => hupd _ t' rfl h, hupd, fun reason t' hs h => ?_⟩
  unfold Token.revoke Token.with_updates at h
  split at h
  · exact absurd h (by simp)
  · cases h
    simp only [Token.pyEq, Option.getD]
    have : (TokenStatus.REVOKED == t.status) = false := by
      cases hb : TokenStatus.REVOKED == t.status
      · rfl
      · exact absurd (beq_iff_eq.mp hb).symm hs
    simp [this]

/-- Witness for C10: at concrete inputs, `mark_used` preserves equality and
`revoke` on the active sample token breaks it. -/
theorem C10_witness :
    Token.pyEq { sampleActive with last_used_at := some 9 } sampleActive = true ∧
    Token.pyEq
      { sampleActive with
        status := TokenStatus.REVOKED
        revoked_at := some 9
        revocation_reason := some "bye" }
      sampleActive = false :=
  ⟨(C10_equality_semantics sampleActive 9).1
     { sampleActive with last_used_at := some 9 } rfl,
   (C10_equality_semantics sampleActive 9).2.2 (some "bye")
     { sampleActive with
       status := TokenStatus.REVOKED
       revoked_at := some 9
       revocation_reason := some "bye" }
     (by decide) rfl⟩

/-! ### Claim C5 -/

/-- If no explicit `commit()` is performed, `runOps` never changes the durable
store, whether it finishes or raises. -/
lemma runOps_no_commit_durable :
    ∀ (ops : List UowOp) (s : SessionState), ops.all (fun o => !o.isCommit) = true →
      (∀ s', runOps s ops = .ok s' → s'.durable = s.durable) ∧
      (∀ e s', runOps s ops = .error (e, s') → s'.durable = s.durable) := by
  intro ops
  induction ops with
  | nil =>
    intro s _
    constructor
    · intro s' h
      cases h
      rfl
    · intro e s' h
      exact absurd h (by simp [runOps])
  | cons op rest ih =>
    intro s hall
    simp only [List.all_cons, Bool.and_eq_true] at hall
    cases op with
    | write t =>
      have h2 := ih { s with pending := s.pending ++ [t] } hall.2
      exact ⟨fun s' h => h2.1 s' h, fun e s' h => h2.2 e s' h⟩
    | commit => exact absurd hall.1 (by simp [UowOp.isCommit])
    | raiseExc e0 =>
      constructor
      · intro s' h
        exact absurd h (by simp [runOps])
      · intro e s' h
        simp only [runOps] at h
        cases h
        rfl

/-- Claim C5 is refuted as stated: a write inside a `transaction()` block with
no `commit()` call becomes durable on the block's normal exit, because
`session.begin()` commits on clean exit — so a normal exit alone does
auto-commit the pending write. -/
theorem C5_counterexample :
    UnitOfWork.transaction [] [UowOp.write sampleActive] = (.ok (), [sampleActive]) ∧
      ([sampleActive] : List Token) ≠ [] := by
  constructor
  · rfl
  · simp

/-- Claim C5 (corrected): within `UnitOfWork.transaction`, any exception is
re-raised and, when no `commit()` succeeded earlier in the block, the durable
store is exactly what it was before the block — zero visible side effects;
but a normal exit of the block auto-commits the pending writes (the block
runs under `session.begin()`, which commits on clean exit), so writes become
durable without an explicit `commit()` call. -/
theorem C5_transaction_semantics :
    ∀ (d : List Token) (ops : List UowOp),
      (∀ e s, runOps { durable := d, pending := d } ops = .error (e, s) →
        (UnitOfWork.transaction d ops).1 = .error e) ∧
      (ops.all (fun o => !o.isCommit) = true →
        ∀ e s, runOps { durable := d, pending := d } ops = .error (e, s) →
          UnitOfWork.transaction d ops = (.error e, d)) ∧
      (∀ s, runOps { durable := d, pending := d } ops = .ok s →
        UnitOfWork.transaction d ops = (.ok (), s.pending)) := by
  intro d ops
  refine ⟨?_, ?_, ?_⟩
  · intro e s h
    unfold UnitOfWork.transaction
    rw [h]
  · intro hall e s h
    have hd := (runOps_no_commit_durable ops { durable := d, pending := d } hall).2 e s h
    unfold UnitOfWork.transaction
    rw [h]
    simpa using hd
  · intro s h
    unfold UnitOfWork.transaction
    rw [h]

/-- Witness for C5: a concrete block that writes a token and then raises is
rolled back — the raise re-surfaces and the durable store stays empty. -/
theorem C5_witness :
    UnitOfWork.transaction []
        [UowOp.write sampleActive, UowOp.raiseExc (.valueError "boom")] =
      (.error (.valueError "boom"), []) :=
  (C5_transaction_semantics []
      [UowOp.write sampleActive, UowOp.raiseExc (.valueError "boom")]).2.1
    (by decide) (.valueError "boom")
    { durable := [], pending := [sampleActive] } (by decide)

/-! ### Claims C4 and C1: verification and rotation -/

/-- The inner `try` always leaves with an exception: either the user is
missing (unconstructible result), the frozen-dataclass assignment raises, or
the success construction raises. -/
lemma verify_user_step_isError (env : VerifyEnv) (store : List Token)
    (payload : TokenPayload) (token : Token) :
    ∃ e st, TokenService.verify_user_step env store payload token =
      (Except.error e, st) := by
  unfold TokenService.verify_user_step
  split
  · exact ⟨_, _, rfl⟩
  · exact ⟨_, _, rfl⟩

/-- Every branch of the `verify_token` body ends in an exception: each
`return TokenVerificationResult(...)` raises TypeError, and the remaining
exits raise the status errors or propagate a Python error. -/
lemma verify_token_body_isError (env : VerifyEnv) (store : List Token)
    (s : String) (tt : Option String) (rs : Option (List String)) :
    ∃ e st, TokenService.verify_token_body env store s tt rs = (Except.error e, st) := by
  unfold TokenService.verify_token_body
  split
  · exact ⟨_, _, rfl⟩
  · exact ⟨_, _, rfl⟩
  · exact ⟨_, _, rfl⟩
  · next payload _ =>
    split
    · exact ⟨_, _, rfl⟩
    · split
      · exact ⟨_, _, rfl⟩
      · next token _ =>
        split
        · split
          · exact ⟨_, _, rfl⟩
          · split
            · exact ⟨_, _, rfl⟩
            · exact ⟨_, _, rfl⟩
        · split
          · exact ⟨_, _, rfl⟩
          · obtain ⟨e, st, h⟩ := verify_user_step_isError env store payload token
            rw [h]
            exact ⟨_, _, rfl⟩

/-- `TokenService.verify_token` raises TypeError on every input — its own
`except Exception` handler constructs the unconstructible
`TokenVerificationResult` — and leaves the store unchanged. -/
lemma verify_token_raises (env : VerifyEnv) (store : List Token) (s : String)
    (tt : Option String) (rs : Option (List String)) :
    TokenService.verify_token env store s tt rs =
      (Except.error (.typeError tvrNoArgsMsg), store) := by
  obtain ⟨e, st, h⟩ := verify_token_body_isError env store s tt rs
  unfold TokenService.verify_token
  rw [h]
  rfl

/-- Claim C4 (code bug): the claim says a persisted non-active status is
reported as a status-specific structured `TokenVerificationResult`, never an
unhandled exception.  In the code `verify_token` raises an unhandled TypeError
on every input, because each construction of `TokenVerificationResult` —
including the one inside its own `except Exception` handler — fails (the
class defines no `__init__`).  The body does raise the status-specific
`TokenRevokedError` for the revoked sample token, but that error is swallowed
by the function's own catch-all; nothing status-specific reaches the caller.
`is_valid=true` is indeed never returned, trivially. -/
theorem C4_verify_token_unhandled_typeerror :
    (∀ (env : VerifyEnv) (store : List Token) (s : String) (tt : Option String)
        (rs : Option (List String)),
      TokenService.verify_token env store s tt rs =
        (.error (.typeError tvrNoArgsMsg), store)) ∧
    TokenService.verify_token decodeEnvOk [sampleRevoked] "tok-2" none none =
      (.error (.typeError tvrNoArgsMsg), [sampleRevoked]) ∧
    sampleRevoked.status ≠ TokenStatus.ACTIVE ∧
    TokenService.verify_token_body decodeEnvOk [sampleRevoked] "tok-2" none none =
      (.error (.tokenRevokedError "Token has been revoked"), [sampleRevoked]) := by
  refine ⟨verify_token_raises, verify_token_raises _ _ _ _ _, by decide, by decide⟩

/-- Claim C1 (code bug): the claim describes successful rotation returning a
new `(access, refresh)` pair.  In the code `refresh_access_token` returns
`None` for every input — including a stored, active refresh token — because
`verify_token` always raises (see `verify_token_raises`) and the
`except Exception` handler maps the raise to `None`; no revocation, minting or
linking ever happens and the store is unchanged. -/
theorem C1_refresh_access_token_always_none :
    (∀ (env : VerifyEnv) (store : List Token) (r fresh : String),
      TokenService.refresh_access_token env store r fresh = (none, store)) ∧
    TokenService.refresh_access_token decodeEnvOk [sampleActive] "tok-1" "fresh-abc" =
      (none, [sampleActive]) ∧
    sampleActive.status = TokenStatus.ACTIVE ∧
    sampleActive.token_type = TokenType.REFRESH := by
  have huniv : ∀ (env : VerifyEnv) (store : List Token) (r fresh : String),
      TokenService.refresh_access_token env store r fresh = (none, store) := by
    intro env store r fresh
    unfold TokenService.refresh_access_token
    rw [verify_token_raises]
  exact ⟨huniv, huniv _ _ _ _, rfl, rfl⟩

/-! ### Claim C6 -/

/-- Claim C6 (code bug): the claim says `revoke_token` returns `false` without
state change for an absent or non-active token, and otherwise revokes,
persists and returns `true`.  In the code the revoking branch assigns
`token.status` on the frozen `Token` dataclass, raising
`FrozenInstanceError`, which the `except Exception` handler turns into
`False` after the transaction rolled back — so `revoke_token` returns
`false` and leaves the store unchanged on every input, even for the stored
active token. -/
theorem C6_revoke_token_never_revokes :
    (∀ (env : VerifyEnv) (store : List Token) (ident reason : String),
      TokenService.revoke_token env store ident reason = (false, store)) ∧
    TokenService.revoke_token decodeEnvOk [sampleActive] "tok-1" "logout" =
      (false, [sampleActive]) ∧
    sampleActive.status = TokenStatus.ACTIVE := by
  have huniv : ∀ (env : VerifyEnv) (store : List Token) (ident reason : String),
      TokenService.revoke_token env store ident reason = (false, store) := by
    intro env store ident reason
    unfold TokenService.revoke_token
    split
    · rfl
    · split
      · rfl
      · rfl
  exact ⟨huniv, huniv _ _ _ _, rfl⟩

/-! ### Claim C7 -/

/-- `TokenService.create_token` raises `TokenError("Failed to create token")`
for every non-empty user id: every path of its `try` body fails — at the
latest at the nonexistent `Token.create` — and the handler wraps the failure. -/
lemma create_token_raises (env : VerifyEnv) (store : List Token) (uid ttype : String)
    (ein : Int) (scopes : List String) (fresh : String) (ts : Option String)
    (h : uid ≠ "") :
    TokenService.create_token env store uid ttype ein scopes fresh ts =
      (.error (.tokenError "Failed to create token"), store) := by
  unfold TokenService.create_token
  rw [if_neg h]
  cases hfn : TokenExpiry.from_now ein env.now with
  | error e => rfl
  | ok ex =>
    cases hts : TokenString.call (ts.getD fresh) with
    | error e => rfl
    | ok t => rfl

/-- `TokenService.create_refresh_token` always raises: ValueError for an
invalid user, otherwise the propagating `TokenError` of `create_token`. -/
lemma create_refresh_token_isError (env : VerifyEnv) (store : List Token)
    (user : User) (pid : Option String) (fresh : String) :
    ∃ e, TokenService.create_refresh_token env store user pid fresh =
      (Except.error e, store) := by
  unfold TokenService.create_refresh_token
  by_cases h : user.id = ""
  · rw [if_pos h]
    exact ⟨_, rfl⟩
  · rw [if_neg h, create_token_raises env store user.id TokenType.REFRESH
      env.refresh_token_expire_seconds ["refresh_token"] fresh none h]
    exact ⟨_, rfl⟩

/-- Claim C7 (code bug): the claim says `create_refresh_token` returns a
`(token_string, Token)` pair with type `refresh`, opaque value and scope
`refresh_token`.  In the code it raises `TokenError` for every valid user:
`create_token` calls the classmethod `Token.create`, which does not exist on
the entity (only `create_access_token`/`create_refresh_token` do), the
resulting AttributeError is wrapped into `TokenError("Failed to create
token")`, and that error propagates out of `create_refresh_token` unhandled;
nothing is persisted. -/
theorem C7_create_refresh_token_raises :
    (∀ (env : VerifyEnv) (store : List Token) (user : User) (pid : Option String)
        (fresh : String), user.id ≠ "" →
      TokenService.create_refresh_token env store user pid fresh =
        (.error (.tokenError "Failed to create token"), store)) ∧
    TokenService.create_refresh_token decodeEnvOk [] sampleUser none "fresh-abc" =
      (.error (.tokenError "Failed to create token"), []) ∧
    sampleUser.id ≠ "" := by
  have huniv : ∀ (env : VerifyEnv) (store : List Token) (user : User)
      (pid : Option String) (fresh : String), user.id ≠ "" →
      TokenService.create_refresh_token env store user pid fresh =
        (.error (.tokenError "Failed to create token"), store) := by
    intro env store user pid fresh h
    unfold TokenService.create_refresh_token
    rw [if_neg h, create_token_raises env store user.id TokenType.REFRESH
      env.refresh_token_expire_seconds ["refresh_token"] fresh none h]
  exact ⟨huniv, huniv _ _ _ _ _ (by decide), by decide⟩

/-- Witness for C7: the universal part applied to the concrete sample user. -/
theorem C7_witness :
    TokenService.create_refresh_token decodeEnvOk [sampleActive] sampleUser
        (some "parent-1") "fresh-xyz" =
      (.error (.tokenError "Failed to create token"), [sampleActive]) :=
  C7_create_refresh_token_raises.1 decodeEnvOk [sampleActive] sampleUser
    (some "parent-1") "fresh-xyz" (by decide)

/-! ### Claim C3 -/

/-- `AuthService.create_token_pair` raises
`AuthenticationError("Failed to create token pair")` for every user: the
refresh-token creation it starts with always raises (see
`create_refresh_token_isError`) and the `except Exception` handler wraps the
failure. -/
lemma create_token_pair_raises (env : AuthEnv) (store : List Token) (user : User)
    (fresh : String) :
    AuthService.create_token_pair env store user fresh =
      (.error (.authenticationError "Failed to create token pair"), store) := by
  obtain ⟨e, he⟩ := create_refresh_token_isError env.tokenEnv store user none fresh
  unfold AuthService.create_token_pair
  rw [he]

/-- The concrete `AuthService` environment: password verification succeeds
exactly for the password of the login scenario in the spec. -/
def sampleAuthEnv : AuthEnv :=
  { tokenEnv := decodeEnvOk, verify_password := fun p _ => p == "Secret123!" }

/-- Claim C3 (code bug): the claim says `authenticate_user` returns the user
with a token dictionary produced by a `create_token_pair` that returns a
four-tuple.  In the code `authenticate_user` never returns: for every input
it raises (universally quantified part), and for the fully valid login —
enabled, verified user with the correct password — it raises
`AuthenticationError` because `create_token_pair` raises `TokenError`
upstream (nonexistent `Token.create`), would return a three-entry dict rather
than the annotated four-tuple, and the caller unpacks that dict into four
variables. -/
theorem C3_authenticate_user_always_errors :
    (∀ (env : AuthEnv) (store : List Token) (users : List User)
        (email pw fresh : String),
      ∃ e, AuthService.authenticate_user env store users email pw fresh =
        (Except.error e, store)) ∧
    AuthService.authenticate_user sampleAuthEnv [] [sampleUser] "u@example.com"
        "Secret123!" "fresh-abc" =
      (.error (.authenticationError "An error occurred during authentication"), []) ∧
    sampleUser.status.is_enabled = true ∧
    sampleUser.status.is_verified = true ∧
    sampleAuthEnv.verify_password "Secret123!" sampleUser.hashed_password = true := by
  have hbody : ∀ (env : AuthEnv) (store : List Token) (users : List User)
      (email pw fresh : String),
      ∃ e st, AuthService.authenticate_user_body env store users email pw fresh =
        (Except.error e, st) := by
    intro env store users email pw fresh
    unfold AuthService.authenticate_user_body
    split
    · exact ⟨_, _, rfl⟩
    · next user _ =>
      split
      · exact ⟨_, _, rfl⟩
      · split
        · exact ⟨_, _, rfl⟩
        · split
          · exact ⟨_, _, rfl⟩
          · rw [create_token_pair_raises env store user fresh]
            exact ⟨_, _, rfl⟩
  have huniv : ∀ (env : AuthEnv) (store : List Token) (users : List User)
      (email pw fresh : String),
      ∃ e, AuthService.authenticate_user env store users email pw fresh =
        (Except.error e, store) := by
    intro env store users email pw fresh
    obtain ⟨e, st, h⟩ := hbody env store users email pw fresh
    unfold AuthService.authenticate_user
    rw [h]
    by_cases hc : e.isCredentialErr
    · exact ⟨e, by simp [hc]⟩
    · exact ⟨.authenticationError "An error occurred during authentication",
        by simp [hc]⟩
  refine ⟨huniv, by decide, rfl, rfl, by decide⟩

end AFS
